import Mathlib

/-!
Verification development for the music acquisition / recognition bot.

The Python sources are shallowly embedded as executable Lean definitions:
  * timestamps (`datetime`) are modelled as `Nat` seconds; the
    `isoformat`/`fromisoformat` pair is a bijection, so (de)serialisation is
    modelled as the identity,
  * Python dicts are ordered association lists (`Dict`),
  * fallible code returns `Except`/`Option`,
  * the dual-backend record store is embedded on its in-process
    ("local storage") branch, the one fully contained in the sources
    (`self.initialized` false); the remote branch performs network I/O.
-/

/-! ### Python string primitives (ASCII fragment of `str.lower`, `in`, `int`, `strip`) -/

/-- ASCII branch of Python `str.lower` on one character. -/
def pyLowerChar (c : Char) : Char :=
  if 'A' ≤ c ∧ c ≤ 'Z' then Char.ofNat (c.toNat + 32) else c

/-- Python `str.lower` (ASCII model; every domain fragment compared against is ASCII). -/
def pyLower (s : String) : String :=
  String.mk (s.toList.map pyLowerChar)

/-- Sublist-of-consecutive-elements test on character lists. -/
def listContainsSublist (needle haystack : List Char) : Bool :=
  (List.range (haystack.length + 1)).any (fun i => needle.isPrefixOf (haystack.drop i))

/-- Python `needle in haystack` on strings (substring containment). -/
def pyInStr (needle haystack : String) : Bool :=
  listContainsSublist needle.toList haystack.toList

/-- Python `str.strip()` of surrounding whitespace, on a character list. -/
def pyStripChars (cs : List Char) : List Char :=
  ((cs.dropWhile Char.isWhitespace).reverse.dropWhile Char.isWhitespace).reverse

/-- Python `int(text)` on decimal notation: optional surrounding whitespace, an
optional single sign, then one or more ASCII digits; anything else raises
`ValueError`, modelled as `none`. -/
def pyIntParse (s : String) : Option Int :=
  match pyStripChars s.toList with
  | [] => Option.none
  | c :: rest =>
    let signAndDigits : Int × List Char :=
      if c = '-' then (-1, rest)
      else if c = '+' then (1, rest)
      else (1, c :: rest)
    match signAndDigits with
    | (sign, digits) =>
      if digits.isEmpty then Option.none
      else if digits.all Char.isDigit then
        Option.some (sign * Int.ofNat (digits.foldl (fun acc d => acc * 10 + (d.toNat - 48)) 0))
      else Option.none

/-! ### Platform classifier (src/utils/helpers.py 260-283, src/services/downloader.py 147-170) -/

/-- The five supported source platforms. -/
inductive Platform where
  | youtube
  | instagram
  | tiktok
  | pinterest
  | soundcloud
deriving DecidableEq

/-- Embedding of `get_platform_from_url` (src/utils/helpers.py lines 260-283):
lowercases the URL and tests the fixed domain fragments in order. -/
def get_platform_from_url (url : String) : Option Platform :=
  let u := pyLower url
  if pyInStr "youtube.com" u || pyInStr "youtu.be" u then Option.some Platform.youtube
  else if pyInStr "instagram.com" u || pyInStr "instagr.am" u then Option.some Platform.instagram
  else if pyInStr "tiktok.com" u then Option.some Platform.tiktok
  else if pyInStr "pinterest.com" u || pyInStr "pin.it" u then Option.some Platform.pinterest
  else if pyInStr "soundcloud.com" u then Option.some Platform.soundcloud
  else Option.none

/-- Embedding of `Downloader._get_platform_from_url`
(src/services/downloader.py lines 147-170), the second, private copy of the
classifier; its body is the same chain of substring tests. -/
def downloader_get_platform_from_url (url : String) : Option Platform :=
  let u := pyLower url
  if pyInStr "youtube.com" u || pyInStr "youtu.be" u then Option.some Platform.youtube
  else if pyInStr "instagram.com" u || pyInStr "instagr.am" u then Option.some Platform.instagram
  else if pyInStr "tiktok.com" u then Option.some Platform.tiktok
  else if pyInStr "pinterest.com" u || pyInStr "pin.it" u then Option.some Platform.pinterest
  else if pyInStr "soundcloud.com" u then Option.some Platform.soundcloud
  else Option.none

/-- The platform / domain-fragment reference table of the spec (section 4.2),
matching `SOCIAL_MEDIA_PLATFORMS` in src/config.py. -/
def platformFragments : Platform → List String
  | Platform.youtube => ["youtube.com", "youtu.be"]
  | Platform.instagram => ["instagram.com", "instagr.am"]
  | Platform.tiktok => ["tiktok.com"]
  | Platform.pinterest => ["pinterest.com", "pin.it"]
  | Platform.soundcloud => ["soundcloud.com"]

/-- Case-insensitive test: some domain fragment of `p` occurs in `url`. -/
def matchesPlatform (url : String) (p : Platform) : Bool :=
  (platformFragments p).any (fun f => pyInStr f (pyLower url))

/-- Modelled from the spec's words (section 4.2), for comparison with the code:
a pure case-insensitive substring match against the fixed table, first matching
platform (in table order) wins, otherwise unsupported. -/
def specClassify (url : String) : Option Platform :=
  if matchesPlatform url Platform.youtube then Option.some Platform.youtube
  else if matchesPlatform url Platform.instagram then Option.some Platform.instagram
  else if matchesPlatform url Platform.tiktok then Option.some Platform.tiktok
  else if matchesPlatform url Platform.pinterest then Option.some Platform.pinterest
  else if matchesPlatform url Platform.soundcloud then Option.some Platform.soundcloud
  else Option.none

/-! ### Ordered dictionaries (Python `dict` with unique keys) -/

/-- Insertion-ordered association list standing for a Python `dict`;
keys are unique for every dict the embedded code builds. -/
abbrev Dict (κ α : Type) := List (κ × α)

/-- Python `d.get(k)` / `d[k]` lookup (first matching key). -/
def dictGet {κ α : Type} [DecidableEq κ] : Dict κ α → κ → Option α
  | [], _ => Option.none
  | kv :: rest, k => if kv.1 = k then Option.some kv.2 else dictGet rest k

/-- Python `d[k] = v`: replace the value at an existing key in place,
else append the new binding at the end. -/
def dictSet {κ α : Type} [DecidableEq κ] : Dict κ α → κ → α → Dict κ α
  | [], k, v => [(k, v)]
  | kv :: rest, k, v => if kv.1 = k then (k, v) :: rest else kv :: dictSet rest k v

/-! ### Record store data model (src/models, src/services/firebase_service.py) -/

/-- Embedding of the `User` model (src/models/user.py): `joined_at` is never
`None` after construction (`joined_at or datetime.now()`), so it is a plain
timestamp here. -/
structure User where
  id : Int
  username : Option String
  first_name : Option String
  last_name : Option String
  language : String
  joined_at : Nat
  is_active : Bool
deriving DecidableEq

/-- The user document written by `FirebaseService.save_user`
(src/services/firebase_service.py lines 82-91). -/
structure UserData where
  id : Int
  username : Option String
  first_name : Option String
  last_name : Option String
  language : String
  joined_at : Nat
  last_activity : Nat
  is_active : Bool
deriving DecidableEq

/-- Embedding of the `Song` model (src/models/song.py); `recognized_at` is
never `None` after construction. -/
structure Song where
  id : Int
  title : String
  artist : String
  album : String
  duration : Int
  genre : String
  year : Int
  spotify_url : String
  apple_url : String
  youtube_url : String
  image_url : String
  shazam_id : String
  isrc : String
  recognized_at : Nat
  user_id : Option Int
deriving DecidableEq

/-- The song document written by `FirebaseService.save_song`
(src/services/firebase_service.py lines 237-252); it carries every `Song`
field except `id`. -/
structure SongData where
  title : String
  artist : String
  album : String
  duration : Int
  genre : String
  year : Int
  spotify_url : String
  apple_url : String
  youtube_url : String
  image_url : String
  shazam_id : String
  isrc : String
  recognized_at : Nat
  user_id : Option Int
deriving DecidableEq

/-- A broadcast document as written by `FirebaseService.save_broadcast_message`
(src/services/firebase_service.py lines 438-446). -/
structure Broadcast where
  id : String
  message : String
  duration_hours : Nat
  sent_by : Int
  sent_at : Nat
  expires_at : Option Nat
  is_active : Bool
deriving DecidableEq

/-- The in-process backend state set up by `FirebaseService._use_local_storage`
(src/services/firebase_service.py lines 57-69).  The statistics dict holds the
integer counters; its `last_updated` string entry is carried as the separate
field `statsLastUpdated`.  The `broadcasts` key does not exist until the first
`save_broadcast_message` call, hence the `Option`. -/
structure LocalStorage where
  users : Dict String UserData
  songs : Dict String SongData
  stats : Dict String Int
  statsLastUpdated : Nat
  broadcasts : Option (Dict String Broadcast)
deriving DecidableEq

/-- The local storage as initialised by `_use_local_storage`: no users, no
songs, the three counters at 0, no `broadcasts` key. -/
def initialLocalStorage (now : Nat) : LocalStorage :=
  { users := []
    songs := []
    stats := [("total_users", 0), ("songs_recognized", 0), ("songs_downloaded", 0)]
    statsLastUpdated := now
    broadcasts := Option.none }

/-! ### Record store operations, in-process backend branch -/

/-- The `user_data` dict built by `save_user` (lines 82-91): note the
hard-coded `is_active: True`. -/
def userDataOf (now : Nat) (u : User) : UserData :=
  { id := u.id
    username := u.username
    first_name := u.first_name
    last_name := u.last_name
    language := u.language
    joined_at := u.joined_at
    last_activity := now
    is_active := true }

/-- Embedding of `FirebaseService.save_user` (lines 71-106), local branch:
upserts the user document keyed by `str(user.id)` and then directly overwrites
the `total_users` counter with `len(users)` (line 99). -/
def save_user (st : LocalStorage) (now : Nat) (u : User) : LocalStorage × Bool :=
  let users := dictSet st.users (toString u.id) (userDataOf now u)
  ({ st with
      users := users
      stats := dictSet st.stats "total_users" (Int.ofNat users.length) },
    true)

/-- Embedding of `FirebaseService.get_user` (lines 108-149), local branch.
The reconstruction (lines 136-143) passes no `is_active` argument, so the
`User` default `True` applies.  The `data.get(..., default)` fallbacks never
fire for documents written by `save_user`, which always stores every key. -/
def get_user (st : LocalStorage) (user_id : Int) : Option User :=
  match dictGet st.users (toString user_id) with
  | Option.none => Option.none
  | Option.some d =>
    Option.some
      { id := d.id
        username := d.username
        first_name := d.first_name
        last_name := d.last_name
        language := d.language
        joined_at := d.joined_at
        is_active := true }

/-- The document key used by `save_song` (line 259): `song.shazam_id or
str(song.id)`, the empty string being falsy. -/
def songKey (s : Song) : String :=
  if s.shazam_id = "" then toString s.id else s.shazam_id

/-- The `song_data` dict built by `save_song` (lines 237-252). -/
def songDataOf (s : Song) : SongData :=
  { title := s.title
    artist := s.artist
    album := s.album
    duration := s.duration
    genre := s.genre
    year := s.year
    spotify_url := s.spotify_url
    apple_url := s.apple_url
    youtube_url := s.youtube_url
    image_url := s.image_url
    shazam_id := s.shazam_id
    isrc := s.isrc
    recognized_at := s.recognized_at
    user_id := s.user_id }

/-- Embedding of `FirebaseService.save_song` (lines 226-267), local branch:
an upsert that touches only the `songs` collection. -/
def save_song (st : LocalStorage) (s : Song) : LocalStorage × Bool :=
  ({ st with songs := dictSet st.songs (songKey s) (songDataOf s) }, true)

/-- Embedding of `FirebaseService.increment_stat` (lines 371-421), local
branch: read-modify-write adding one, initialising an absent counter to 1,
then refreshing `last_updated`. -/
def increment_stat (st : LocalStorage) (now : Nat) (name : String) : LocalStorage × Bool :=
  let stats :=
    match dictGet st.stats name with
    | Option.some v => dictSet st.stats name (v + 1)
    | Option.none => dictSet st.stats name 1
  ({ st with stats := stats, statsLastUpdated := now }, true)

/-! ### Broadcast records (src/services/firebase_service.py 423-514) -/

/-- Names brought into scope by the module-level imports of
src/services/firebase_service.py (lines 5-20): `asyncio`, `json`, `logging`,
`os`, `datetime` (only the class, via `from datetime import datetime`), the
typing names, the optional firebase names and the two models.  `timedelta` is
not among them. -/
def firebaseServiceImports : List String :=
  ["asyncio", "json", "logging", "os", "datetime", "Dict", "List", "Optional", "Any",
   "firebase_admin", "credentials", "firestore", "User", "Song", "logger", "FirebaseService",
   "FIREBASE_AVAILABLE"]

/-- Evaluation of the `expires_at` entry of line 444:
`(datetime.now() + timedelta(hours=duration_hours)).isoformat() if duration_hours > 0 else None`.
The conditional guard is evaluated first, so for `duration_hours = 0` the
`timedelta` name is never looked up; for a positive duration the lookup of the
unimported name `timedelta` raises `NameError`. -/
def evalBroadcastExpiry (now : Nat) (duration_hours : Nat) : Except String (Option Nat) :=
  if duration_hours > 0 then
    if firebaseServiceImports.contains "timedelta" then
      Except.ok (Option.some (now + duration_hours * 3600))
    else
      Except.error "NameError: name timedelta is not defined"
  else
    Except.ok Option.none

/-- The time-derived identifier of line 436: `f"broadcast_{datetime.now().timestamp()}"`. -/
def broadcastMessageId (now : Nat) : String :=
  "broadcast_" ++ toString now

/-- Embedding of `FirebaseService.save_broadcast_message` (lines 423-462),
local branch.  Building `broadcast_data` evaluates `evalBroadcastExpiry`; a
raised `NameError` is caught by the function's `except` handler, which logs it
and returns the empty string without storing anything.  On the successful path
the record is stored (creating the `broadcasts` key on first use) and the
identifier returned. -/
def save_broadcast_message (st : LocalStorage) (now : Nat) (message : String)
    (duration_hours : Nat) (sent_by : Int) : LocalStorage × String :=
  let message_id := broadcastMessageId now
  match evalBroadcastExpiry now duration_hours with
  | Except.error _ => (st, "")
  | Except.ok expires =>
    let b : Broadcast :=
      { id := message_id
        message := message
        duration_hours := duration_hours
        sent_by := sent_by
        sent_at := now
        expires_at := expires
        is_active := true }
    let bs :=
      match st.broadcasts with
      | Option.none => dictSet [] message_id b
      | Option.some d => dictSet d message_id b
    ({ st with broadcasts := Option.some bs }, message_id)

/-- The per-record body of the `get_active_broadcasts` loop (lines 496-507):
an inactive record is skipped; an active one whose expiry is strictly passed is
marked inactive and skipped; every other active record is returned.  The first
component is the loop's contribution to the result list, the second the
record's state after the iteration. -/
def broadcastCheck (now : Nat) (b : Broadcast) : Option Broadcast × Broadcast :=
  if b.is_active then
    match b.expires_at with
    | Option.some e =>
      if now > e then (Option.none, { b with is_active := false })
      else (Option.some b, b)
    | Option.none => (Option.some b, b)
  else (Option.none, b)

/-- Embedding of `FirebaseService.get_active_broadcasts` (lines 464-514),
local branch: iterates the `broadcasts` dict (empty result when the key does
not exist), lazily deactivating stale records in place. -/
def get_active_broadcasts (st : LocalStorage) (now : Nat) : List Broadcast × LocalStorage :=
  match st.broadcasts with
  | Option.none => ([], st)
  | Option.some d =>
    (d.filterMap (fun kv => (broadcastCheck now kv.2).1),
     { st with broadcasts := Option.some (d.map (fun kv => (kv.1, (broadcastCheck now kv.2).2))) })

/-! ### Recognizer normalization (src/services/song_recognizer.py 18-64) -/

/-- Untyped tree of values as returned by the fingerprinting service. -/
inductive PyVal where
  | pyNone : PyVal
  | pyStr : String → PyVal
  | pyInt : Int → PyVal
  | pyList : List PyVal → PyVal
  | pyDict : List (String × PyVal) → PyVal

/-- Python truthiness for the values above. -/
def pyTruthy : PyVal → Bool
  | PyVal.pyNone => false
  | PyVal.pyStr s => !(s = "")
  | PyVal.pyInt n => !(n = 0)
  | PyVal.pyList xs => !xs.isEmpty
  | PyVal.pyDict es => !es.isEmpty

/-- First binding of a key in a `PyVal` dict entry list. -/
def pyLookup : List (String × PyVal) → String → Option PyVal
  | [], _ => Option.none
  | kv :: rest, k => if kv.1 = k then Option.some kv.2 else pyLookup rest k

/-- Python `v.get(k, default)`: a missing key yields the default, a non-dict
receiver raises `AttributeError`. -/
def pyGet (v : PyVal) (k : String) (dflt : PyVal) : Except String PyVal :=
  match v with
  | PyVal.pyDict entries =>
    match pyLookup entries k with
    | Option.some x => Except.ok x
    | Option.none => Except.ok dflt
  | _ => Except.error "AttributeError"

/-- Python `v[i]` on a list: out-of-range raises `IndexError`, a non-list
receiver raises `TypeError`. -/
def pyIndex (v : PyVal) (i : Nat) : Except String PyVal :=
  match v with
  | PyVal.pyList xs =>
    match xs.get? i with
    | Option.some x => Except.ok x
    | Option.none => Except.error "IndexError"
  | _ => Except.error "TypeError"

/-- The `song_info` dict built at src/services/song_recognizer.py lines 41-54;
the values are kept as raw tree values, as Python stores them. -/
structure SongInfo where
  title : PyVal
  artist : PyVal
  album : PyVal
  duration : PyVal
  genre : PyVal
  year : PyVal
  spotify_url : PyVal
  apple_url : PyVal
  youtube_url : PyVal
  image_url : PyVal
  shazam_id : PyVal
  isrc : PyVal

/-- Embedding of the `song_info` extraction (lines 41-54), entry by entry in
evaluation order.  Each entry is the literal chain of `.get(..., default)` and
`[index]` steps of the source; an exception anywhere aborts the whole dict
construction. -/
def extractSongInfo (track : PyVal) : Except String SongInfo := do
  let title ← pyGet track "title" (PyVal.pyStr "Unknown")
  let artist ← pyGet track "subtitle" (PyVal.pyStr "Unknown")
  let sections ← pyGet track "sections" (PyVal.pyList [PyVal.pyDict []])
  let s0 ← pyIndex sections 0
  let metadata ← pyGet s0 "metadata" (PyVal.pyList [PyVal.pyDict []])
  let m0 ← pyIndex metadata 0
  let album ← pyGet m0 "text" (PyVal.pyStr "Unknown")
  let duration ← pyGet track "duration" (PyVal.pyInt 0)
  let genres ← pyGet track "genres" (PyVal.pyDict [])
  let genre ← pyGet genres "primary" (PyVal.pyStr "")
  let year ← pyGet track "year" (PyVal.pyInt 0)
  let hubA ← pyGet track "hub" (PyVal.pyDict [])
  let actions ← pyGet hubA "actions" (PyVal.pyList [PyVal.pyDict []])
  let a0 ← pyIndex actions 0
  let spotify_url ← pyGet a0 "uri" (PyVal.pyStr "")
  let hubB ← pyGet track "hub" (PyVal.pyDict [])
  let optionsB ← pyGet hubB "options" (PyVal.pyList [PyVal.pyDict []])
  let ob0 ← pyIndex optionsB 0
  let actionsB ← pyGet ob0 "actions" (PyVal.pyList [PyVal.pyDict []])
  let ab0 ← pyIndex actionsB 0
  let apple_url ← pyGet ab0 "uri" (PyVal.pyStr "")
  let hubC ← pyGet track "hub" (PyVal.pyDict [])
  let optionsC ← pyGet hubC "options" (PyVal.pyList [PyVal.pyDict []])
  let oc1 ← pyIndex optionsC 1
  let actionsC ← pyGet oc1 "actions" (PyVal.pyList [PyVal.pyDict []])
  let ac0 ← pyIndex actionsC 0
  let youtube_url ← pyGet ac0 "uri" (PyVal.pyStr "")
  let images ← pyGet track "images" (PyVal.pyDict [])
  let image_url ← pyGet images "coverarthq" (PyVal.pyStr "")
  let shazam_id ← pyGet track "key" (PyVal.pyStr "")
  let isrc ← pyGet track "isrc" (PyVal.pyStr "")
  Except.ok
    { title := title
      artist := artist
      album := album
      duration := duration
      genre := genre
      year := year
      spotify_url := spotify_url
      apple_url := apple_url
      youtube_url := youtube_url
      image_url := image_url
      shazam_id := shazam_id
      isrc := isrc }

/-- Embedding of `SongRecognizer.recognize_song` (lines 18-64).  `fileExists`
abstracts the `os.path.exists` check and `result` the fingerprinting-service
response (`PyVal.pyNone` standing for Python `None`).  Any exception raised
while building `song_info` is caught by the function's own `except Exception`
handler (lines 62-64), which logs it and returns `None` — the record is lost. -/
def recognize_song (fileExists : Bool) (result : PyVal) : Option SongInfo :=
  if fileExists = false then Option.none
  else
    if pyTruthy result then
      match pyGet result "track" PyVal.pyNone with
      | Except.error _ => Option.none
      | Except.ok track =>
        if pyTruthy track then
          match extractSongInfo track with
          | Except.ok info => Option.some info
          | Except.error _ => Option.none
        else Option.none
    else Option.none

/-! ### Downloader option sets (src/services/downloader.py 22-67, 257-363) -/

/-- The yt-dlp option keys relevant to format selection: requested format
string and the list of configured post-processor keys.  Bookkeeping keys
(`outtmpl`, `quiet`, retry settings) are carried where the source sets them. -/
structure YdlOptions where
  format : String
  postprocessors : List String
  outtmpl : String
deriving DecidableEq

/-- Embedding of the `self.ydl_opts` construction in `Downloader.__init__`
(lines 26-59): with FFmpeg available, best audio plus the
`FFmpegExtractAudio` post-processor; without it, a chain of already-encoded
formats and an explicitly empty post-processor list. -/
def mkDownloaderYdlOpts (ffmpeg_available : Bool) : YdlOptions :=
  if ffmpeg_available then
    { format := "bestaudio/best"
      postprocessors := ["FFmpegExtractAudio"]
      outtmpl := "downloads/%(title)s.%(ext)s" }
  else
    { format := "bestaudio[ext=mp3]/bestaudio[ext=m4a]/bestaudio/best"
      postprocessors := []
      outtmpl := "downloads/%(title)s.%(ext)s" }

/-- The option set built inside `_download_from_tiktok` (lines 269-273). -/
def tiktokOpts : YdlOptions :=
  { format := "best", postprocessors := [], outtmpl := "downloads/tiktok_%(id)s.%(ext)s" }

/-- The option set built inside `_download_from_pinterest` (lines 301-305). -/
def pinterestOpts : YdlOptions :=
  { format := "best", postprocessors := [], outtmpl := "downloads/pinterest_%(id)s.%(ext)s" }

/-- The option set built inside `_download_from_soundcloud` (lines 333-342):
a literal that always configures the `FFmpegExtractAudio` post-processor,
independent of `self.ffmpeg_available`. -/
def soundcloudOpts : YdlOptions :=
  { format := "bestaudio/best"
    postprocessors := ["FFmpegExtractAudio"]
    outtmpl := "downloads/soundcloud_%(title)s.%(ext)s" }

/-- The yt-dlp option set each platform adapter passes to its backend, as a
function of the Capability Probe flag.  The YouTube adapter (and the query
search path) uses the shared `self.ydl_opts`; the Instagram adapter uses
instaloader plus direct HTTP and has no yt-dlp option set; the other three
build the literals above. -/
def adapterOpts (ffmpeg_available : Bool) : Platform → Option YdlOptions
  | Platform.youtube => Option.some (mkDownloaderYdlOpts ffmpeg_available)
  | Platform.instagram => Option.none
  | Platform.tiktok => Option.some tiktokOpts
  | Platform.pinterest => Option.some pinterestOpts
  | Platform.soundcloud => Option.some soundcloudOpts

/-! ### Audio extractor (src/services/downloader.py 391-451) -/

/-- Outcome of `Downloader.extract_audio_from_video`.  The Python function
returns `Optional[str]`; the failure constructors record which of its distinct
logged failure branches produced the `None`. -/
inductive ExtractAudioResult where
  | success : String → ExtractAudioResult
  | videoNotFound : ExtractAudioResult
  | unavailable : ExtractAudioResult
  | failed : String → ExtractAudioResult
deriving DecidableEq

/-- Exit status and decoded standard-error text of the spawned child process. -/
structure ProcResult where
  returncode : Int
  stderr : String
deriving DecidableEq

/-- Index of the last occurrence of a character in a list. -/
def lastIdxOf (c : Char) (cs : List Char) : Option Nat :=
  ((List.range cs.length).filter (fun i => cs.get? i = Option.some c)).getLast?

/-- Python `os.path.splitext(p)[0]`: strip the extension starting at the last
dot of the final path component, unless every character before that dot in the
component is itself a dot. -/
def splitextBase (p : String) : String :=
  let cs := p.toList
  match lastIdxOf '.' cs with
  | Option.none => p
  | Option.some i =>
    let baseStart :=
      match lastIdxOf '/' cs with
      | Option.none => 0
      | Option.some j => j + 1
    if baseStart > i then p
    else if (List.range (i - baseStart)).all (fun k => cs.get? (baseStart + k) = Option.some '.') then p
    else String.mk (cs.take i)

/-- Embedding of `Downloader.extract_audio_from_video` (lines 391-451).
`videoExists` abstracts the `os.path.exists(video_path)` check,
`ffmpeg_available` the Capability Probe flag, `ffmpeg_path` the re-fetched
tool location, `proc` the child-process outcome and `outputExists` the
existence check on the produced file.  The second component records whether a
child process was spawned. -/
def extract_audio_from_video (videoPath : String) (videoExists : Bool)
    (ffmpeg_available : Bool) (ffmpeg_path : Option String)
    (proc : ProcResult) (outputExists : Bool) : ExtractAudioResult × Bool :=
  if videoExists = false then (ExtractAudioResult.videoNotFound, false)
  else if ffmpeg_available = false then (ExtractAudioResult.unavailable, false)
  else
    let audio_path := splitextBase videoPath ++ ".mp3"
    match ffmpeg_path with
    | Option.none => (ExtractAudioResult.unavailable, false)
    | Option.some _ =>
      if proc.returncode = 0 ∧ outputExists = true then
        (ExtractAudioResult.success audio_path, true)
      else
        (ExtractAudioResult.failed (if proc.stderr = "" then "Unknown error" else proc.stderr),
         true)

/-! ### Conversation handlers (src/bot.py 368-442) -/

/-- Conversation state constants (src/bot.py lines 69-72). -/
def EDIT_SONG_WAITING_FOR_FILE : Nat := 1

/-- State: the edit flow awaits the replacement metadata text. -/
def EDIT_SONG_WAITING_FOR_INFO : Nat := 2

/-- State: the broadcast flow awaits the message body. -/
def BROADCAST_WAITING_FOR_MESSAGE : Nat := 3

/-- State: the broadcast flow awaits the duration reply. -/
def BROADCAST_WAITING_FOR_DURATION : Nat := 4

/-- Session effects of one `handle_broadcast` call: the user's
`self.user_states` entry afterwards (`none` when absent, i.e. idle), the
`context.user_data['broadcast_message']` scratch entry afterwards, and whether
the reply sent was the generic error message. -/
structure BroadcastHandlerOutcome where
  userState : Option Nat
  broadcastMessage : Option String
  errorReplied : Bool
deriving DecidableEq

/-- Embedding of `MusicBot.handle_broadcast` (src/bot.py lines 399-442).
`int(text)` raising `ValueError` lands in the `except` handler (lines
440-442), which sends the error reply and returns with the state untouched;
a missing pending message returns early (lines 408-410), likewise without a
reset; only the successful path reaches the `user_states.pop` /
`user_data.pop` lines 437-438. -/
def handle_broadcast (state : Option Nat) (pending : Option String) (text : String) :
    BroadcastHandlerOutcome :=
  match pyIntParse text with
  | Option.none =>
    { userState := state, broadcastMessage := pending, errorReplied := true }
  | Option.some _ =>
    match pending with
    | Option.none =>
      { userState := state, broadcastMessage := pending, errorReplied := true }
    | Option.some _ =>
      { userState := Option.none, broadcastMessage := Option.none, errorReplied := false }

/-- Session effects of one `handle_song_edit` call. -/
structure EditHandlerOutcome where
  userState : Option Nat
  editFileId : Option String
  errorReplied : Bool
deriving DecidableEq

/-- Embedding of `MusicBot.handle_song_edit` (src/bot.py lines 368-397).  The
line-splitting of the reply text is total, so the `except` handler is
unreachable; a missing `edit_file_id` returns early (lines 383-385) with the
state untouched; the successful path pops both the state and the scratch file
id (lines 392-393). -/
def handle_song_edit (state : Option Nat) (fileId : Option String) (_text : String) :
    EditHandlerOutcome :=
  match fileId with
  | Option.none =>
    { userState := state, editFileId := fileId, errorReplied := true }
  | Option.some _ =>
    { userState := Option.none, editFileId := Option.none, errorReplied := false }

/-! ### Dictionary lemmas -/

theorem dictGet_dictSet {κ α : Type} [DecidableEq κ] (d : Dict κ α) (k : κ) (v : α) :
    dictGet (dictSet d k v) k = Option.some v := by
  induction d with
  | nil => simp [dictGet, dictSet]
  | cons kv rest ih =>
    by_cases h : kv.1 = k
    · simp [dictSet, dictGet, h]
    · simp [dictSet, dictGet, h, ih]

theorem dictGet_dictSet_ne {κ α : Type} [DecidableEq κ] (d : Dict κ α) (k k' : κ) (v : α)
    (h : k' ≠ k) : dictGet (dictSet d k v) k' = dictGet d k' := by
  have hs : k ≠ k' := Ne.symm h
  induction d with
  | nil => simp [dictGet, dictSet, hs]
  | cons kv rest ih =>
    by_cases hk : kv.1 = k
    · simp [dictSet, dictGet, hk, hs]
    · by_cases hk' : kv.1 = k'
      · simp [dictSet, dictGet, hk, hk', h]
      · simp [dictSet, dictGet, hk, hk', ih]

/-! ### Claim theorems -/

/-- Claim C10: the module-level helper `get_platform_from_url` and the private
`Downloader._get_platform_from_url` are extensionally equal: every URL is sent
to the same platform (or to unsupported) by both classifier copies. -/
theorem classifier_implementations_agree (url : String) :
    get_platform_from_url url = downloader_get_platform_from_url url := rfl

/-- Claim C6: the classifier equals the spec's pure first-match-wins
case-insensitive substring test over the five-platform fragment table; a URL
matching exactly one platform is classified as that platform, and a URL
matching no fragment is unsupported (`none`). -/
theorem classify_spec :
    (∀ url, get_platform_from_url url = specClassify url) ∧
    (∀ url p, matchesPlatform url p = true →
      (∀ q, matchesPlatform url q = true → q = p) →
      get_platform_from_url url = Option.some p) ∧
    (∀ url, (∀ p, matchesPlatform url p = false) → get_platform_from_url url = Option.none) := by
  have heq : ∀ url, get_platform_from_url url = specClassify url := by
    intro url
    simp only [get_platform_from_url, specClassify, matchesPlatform, platformFragments,
      List.any_cons, List.any_nil, Bool.or_false]
  refine ⟨heq, ?_, ?_⟩
  · intro url p hp hu
    have hfalse : ∀ q, q ≠ p → matchesPlatform url q = false := by
      intro q hq
      cases hcase : matchesPlatform url q
      · rfl
      · exact absurd (hu q hcase) hq
    rw [heq]
    cases p with
    | youtube => simp [specClassify, hp]
    | instagram =>
      simp [specClassify, hp, hfalse Platform.youtube (by decide)]
    | tiktok =>
      simp [specClassify, hp, hfalse Platform.youtube (by decide),
        hfalse Platform.instagram (by decide)]
    | pinterest =>
      simp [specClassify, hp, hfalse Platform.youtube (by decide),
        hfalse Platform.instagram (by decide), hfalse Platform.tiktok (by decide)]
    | soundcloud =>
      simp [specClassify, hp, hfalse Platform.youtube (by decide),
        hfalse Platform.instagram (by decide), hfalse Platform.tiktok (by decide),
        hfalse Platform.pinterest (by decide)]
  · intro url h
    rw [heq]
    simp [specClassify, h Platform.youtube, h Platform.instagram, h Platform.tiktok,
      h Platform.pinterest, h Platform.soundcloud]

/-- Witness for `classify_spec`: a mixed-case shortened-domain URL is
classified as the video platform, and a URL containing no fragment is
unsupported. -/
theorem classify_spec_witness :
    get_platform_from_url "https://YouTu.be/dQw4" = Option.some Platform.youtube ∧
    get_platform_from_url "https://example.com/page" = Option.none := by
  constructor
  · exact classify_spec.2.1 "https://YouTu.be/dQw4" Platform.youtube (by decide)
      (by intro q hq; revert hq; cases q <;> decide)
  · exact classify_spec.2.2 "https://example.com/page" (by intro p; cases p <;> decide)

/-- Claim C1 (code bug): for a positive duration, evaluating the `expires_at`
entry looks up `timedelta`, a name the module never imports, so the dict
construction raises `NameError`; the handler catches it and
`save_broadcast_message` returns the empty string with nothing persisted —
against the spec, which promises a non-empty time-derived identifier and a
persisted record with a computed expiry.  Duration 0 alone works (the
conditional guard short-circuits past the bad name) and persists a permanent
active record with no expiry. -/
theorem save_broadcast_positive_duration_bug :
    (save_broadcast_message (initialLocalStorage 0) 1000 "hello" 1 42).2 = "" ∧
    (save_broadcast_message (initialLocalStorage 0) 1000 "hello" 1 42).1 = initialLocalStorage 0 ∧
    evalBroadcastExpiry 1000 1 = Except.error "NameError: name timedelta is not defined" ∧
    (save_broadcast_message (initialLocalStorage 0) 1000 "hello" 0 42).2
      = broadcastMessageId 1000 ∧
    broadcastMessageId 1000 ≠ "" ∧
    (save_broadcast_message (initialLocalStorage 0) 1000 "hello" 0 42).1.broadcasts
      = Option.some [(broadcastMessageId 1000,
          { id := broadcastMessageId 1000, message := "hello", duration_hours := 0,
            sent_by := 42, sent_at := 1000, expires_at := Option.none, is_active := true })] := by
  refine ⟨rfl, rfl, rfl, rfl, ?_, rfl⟩
  decide

/-- Claim C2 (code bug): a match response whose `track` lacks the optional
`hub` subtree makes the `youtube_url` extraction index position 1 of the
one-element default `[{}]`, raising `IndexError`; the outer handler turns
that into `None`, losing the whole record instead of filling the field with
its documented default. -/
theorem recognize_song_missing_hub_loses_record :
    recognize_song true (PyVal.pyDict [("track", PyVal.pyDict [("title", PyVal.pyStr "Song X")])])
      = Option.none ∧
    extractSongInfo (PyVal.pyDict [("title", PyVal.pyStr "Song X")])
      = Except.error "IndexError" :=
  ⟨rfl, rfl⟩

/-- Per-record behaviour of the lazy-expiry loop: a returned record's expiry
is never strictly in the past. -/
theorem broadcastCheck_not_expired (now : Nat) (kv b : Broadcast)
    (h : (broadcastCheck now kv).1 = Option.some b) :
    ∀ e, b.expires_at = Option.some e → now ≤ e := by
  intro e he
  unfold broadcastCheck at h
  by_cases ha : kv.is_active
  · cases hx : kv.expires_at with
    | none =>
      rw [hx] at h
      simp [ha] at h
      rw [← h] at he
      rw [hx] at he
      exact absurd he (by simp)
    | some e2 =>
      rw [hx] at h
      by_cases hgt : now > e2
      · simp [ha, hgt] at h
      · simp [ha, hgt] at h
        rw [← h] at he
        rw [hx] at he
        cases he
        omega
  · simp [ha] at h

/-- A stored one-hour broadcast created at time `T` (expiry `T + 3600`), as
the data model computes it. -/
def b3 (T : Nat) (sender : Int) (msg : String) : Broadcast :=
  { id := "x", message := msg, duration_hours := 1, sent_by := sender,
    sent_at := T, expires_at := Option.some (T + 3600), is_active := true }

/-- A local store holding exactly the broadcast `b3 T sender msg`. -/
def st3 (T : Nat) (sender : Int) (msg : String) : LocalStorage :=
  { initialLocalStorage 0 with broadcasts := Option.some [("x", b3 T sender msg)] }

/-- Claim C3: `get_active_broadcasts` never returns a record whose computed
expiry is strictly in the past; a stored active record with no expiry
(duration 0, permanent) is returned at every read time; and a stored active
record expiring at `T + 3600` (one hour) is returned at `T + 1800` but at
`T + 5400` is dropped and marked inactive in the store by that very read. -/
theorem get_active_broadcasts_expiry :
    (∀ st now b, b ∈ (get_active_broadcasts st now).1 →
      ∀ e, b.expires_at = Option.some e → now ≤ e) ∧
    (∀ st d now k b, st.broadcasts = Option.some d → (k, b) ∈ d →
      b.is_active = true → b.expires_at = Option.none →
      b ∈ (get_active_broadcasts st now).1) ∧
    (∀ T sender (msg : String),
      b3 T sender msg ∈ (get_active_broadcasts (st3 T sender msg) (T + 1800)).1 ∧
      b3 T sender msg ∉ (get_active_broadcasts (st3 T sender msg) (T + 5400)).1 ∧
      (get_active_broadcasts (st3 T sender msg) (T + 5400)).2.broadcasts
        = Option.some [("x", { b3 T sender msg with is_active := false })]) := by
  refine ⟨?_, ?_, ?_⟩
  · intro st now b hb e he
    unfold get_active_broadcasts at hb
    cases hst : st.broadcasts with
    | none => rw [hst] at hb; simp at hb
    | some d =>
      rw [hst] at hb
      simp only [List.mem_filterMap] at hb
      obtain ⟨kv, _, hres⟩ := hb
      exact broadcastCheck_not_expired now kv.2 b hres e he
  · intro st d now k b hst hmem ha he
    unfold get_active_broadcasts
    rw [hst]
    simp only [List.mem_filterMap]
    exact ⟨(k, b), hmem, by simp [broadcastCheck, ha, he]⟩
  · intro T sender msg
    refine ⟨?_, ?_, ?_⟩
    · simp [get_active_broadcasts, st3, b3, broadcastCheck,
        show ¬(T + 1800 > T + 3600) by omega]
    · simp [get_active_broadcasts, st3, b3, broadcastCheck,
        show T + 5400 > T + 3600 by omega]
    · simp [get_active_broadcasts, st3, b3, broadcastCheck,
        show T + 5400 > T + 3600 by omega]

/-- A permanent (duration 0, no expiry) active broadcast. -/
def permBroadcast : Broadcast :=
  { id := "p", message := "m", duration_hours := 0, sent_by := 1,
    sent_at := 0, expires_at := Option.none, is_active := true }

/-- A local store holding exactly `permBroadcast`. -/
def permStore : LocalStorage :=
  { initialLocalStorage 0 with broadcasts := Option.some [("p", permBroadcast)] }

/-- Witness for `get_active_broadcasts_expiry`: the permanent record is still
returned after an arbitrarily long elapsed time. -/
theorem get_active_broadcasts_expiry_witness :
    permBroadcast ∈ (get_active_broadcasts permStore 999999999).1 :=
  get_active_broadcasts_expiry.2.1 permStore [("p", permBroadcast)] 999999999 "p" permBroadcast
    rfl (by simp) rfl rfl

/-- Counterexample to Claim C4: a non-numeric duration reply while in the
awaiting-broadcast-duration state sends the error reply but leaves the user's
state entry at awaiting-duration (and the pending message in place) instead of
returning it to idle. -/
theorem handle_broadcast_nonnumeric_cex :
    handle_broadcast (Option.some BROADCAST_WAITING_FOR_DURATION) (Option.some "hello") "abc"
      = { userState := Option.some BROADCAST_WAITING_FOR_DURATION,
          broadcastMessage := Option.some "hello", errorReplied := true } := by
  decide

/-- Claim C4 (amended): only the successful path of the two stateful handlers
resets the per-user session state to idle and clears the scratch data; every
failure path (non-numeric duration, missing pending broadcast message, missing
pending edit-file id) sends the error reply and leaves the state entry at its
intermediate value. -/
theorem handler_state_reset (state : Option Nat) (pending : Option String)
    (fileId : Option String) (text : String) :
    ((pyIntParse text).isSome = true → pending.isSome = true →
      (handle_broadcast state pending text).userState = Option.none ∧
      (handle_broadcast state pending text).broadcastMessage = Option.none) ∧
    (pyIntParse text = Option.none →
      (handle_broadcast state pending text).userState = state ∧
      (handle_broadcast state pending text).broadcastMessage = pending ∧
      (handle_broadcast state pending text).errorReplied = true) ∧
    (pending = Option.none → (pyIntParse text).isSome = true →
      (handle_broadcast state pending text).userState = state ∧
      (handle_broadcast state pending text).errorReplied = true) ∧
    (fileId.isSome = true → (handle_song_edit state fileId text).userState = Option.none ∧
      (handle_song_edit state fileId text).editFileId = Option.none) ∧
    (fileId = Option.none →
      (handle_song_edit state fileId text).userState = state ∧
      (handle_song_edit state fileId text).errorReplied = true) := by
  refine ⟨?_, ?_, ?_, ?_, ?_⟩
  · intro h1 h2
    cases hp : pyIntParse text with
    | none => rw [hp] at h1; simp at h1
    | some d =>
      cases pending with
      | none => simp at h2
      | some m => simp [handle_broadcast, hp]
  · intro hp
    simp [handle_broadcast, hp]
  · intro hpend h1
    cases hp : pyIntParse text with
    | none => rw [hp] at h1; simp at h1
    | some d => simp [handle_broadcast, hp, hpend]
  · intro h1
    cases fileId with
    | none => simp at h1
    | some f => simp [handle_song_edit]
  · intro h
    simp [handle_song_edit, h]

/-- Witness for `handler_state_reset`: a numeric duration reply resets the
state to idle; a non-numeric one keeps the awaiting-duration state. -/
theorem handler_state_reset_witness :
    (handle_broadcast (Option.some 4) (Option.some "hi") "2").userState = Option.none ∧
    (handle_broadcast (Option.some 4) (Option.some "hi") "oops").userState = Option.some 4 := by
  constructor
  · exact ((handler_state_reset (Option.some 4) (Option.some "hi") (Option.some "f") "2").1
      (by decide) (by decide)).1
  · exact ((handler_state_reset (Option.some 4) (Option.some "hi") (Option.some "f") "oops").2.1
      (by decide)).1

/-- Counterexample to Claim C5: with the Capability Probe flag false, the
SoundCloud adapter's option set still contains the FFmpeg audio-extraction
post-processor. -/
theorem soundcloud_postprocessor_cex :
    (adapterOpts false Platform.soundcloud).map (fun o => o.postprocessors)
      = Option.some ["FFmpegExtractAudio"] := rfl

/-- Claim C5 (amended): with the probe flag false, the shared option set (used
by the YouTube adapter and the query-search path) requests the best
already-encoded asset with an explicitly empty post-processor list, and the
TikTok and Pinterest adapters configure no post-processor either; the
SoundCloud adapter, however, always configures the FFmpeg post-processor,
regardless of the flag (the Instagram adapter has no yt-dlp option set at
all). -/
theorem adapter_opts_degradation :
    (mkDownloaderYdlOpts false).postprocessors = [] ∧
    (mkDownloaderYdlOpts false).format = "bestaudio[ext=mp3]/bestaudio[ext=m4a]/bestaudio/best" ∧
    (mkDownloaderYdlOpts true).postprocessors = ["FFmpegExtractAudio"] ∧
    tiktokOpts.postprocessors = [] ∧
    pinterestOpts.postprocessors = [] ∧
    (∀ flag, adapterOpts flag Platform.soundcloud = Option.some soundcloudOpts) ∧
    soundcloudOpts.postprocessors = ["FFmpegExtractAudio"] ∧
    adapterOpts false Platform.instagram = Option.none := by
  refine ⟨rfl, rfl, rfl, rfl, rfl, ?_, rfl, rfl⟩
  intro flag
  cases flag <;> rfl

/-- Claim C7: with the Capability Probe reporting the tool unavailable,
`extract_audio_from_video` returns the unavailable sentinel without spawning a
child process (and spawns none whatever the file-existence check says); with
the tool available, the call succeeds with the derived audio path exactly when
the child exits with status 0 and the output file exists, and otherwise fails
carrying the captured standard-error text (or the fixed fallback when that
text is empty). -/
theorem extract_audio_spec :
    (∀ vp fp proc outEx,
      extract_audio_from_video vp true false fp proc outEx
        = (ExtractAudioResult.unavailable, false)) ∧
    (∀ vp vEx fp proc outEx,
      (extract_audio_from_video vp vEx false fp proc outEx).2 = false) ∧
    (∀ vp p proc outEx,
      (extract_audio_from_video vp true true (Option.some p) proc outEx
          = (ExtractAudioResult.success (splitextBase vp ++ ".mp3"), true)
        ↔ (proc.returncode = 0 ∧ outEx = true)) ∧
      (¬ (proc.returncode = 0 ∧ outEx = true) →
        extract_audio_from_video vp true true (Option.some p) proc outEx
          = (ExtractAudioResult.failed
              (if proc.stderr = "" then "Unknown error" else proc.stderr), true))) := by
  refine ⟨?_, ?_, ?_⟩
  · intro vp fp proc outEx
    rfl
  · intro vp vEx fp proc outEx
    cases vEx <;> rfl
  · intro vp p proc outEx
    constructor
    · by_cases h : proc.returncode = 0 ∧ outEx = true
      · simp [extract_audio_from_video, h]
      · simp [extract_audio_from_video, h]
    · intro h
      simp [extract_audio_from_video, h]

/-- Witness for `extract_audio_spec`: a non-zero exit status with the output
file present still yields the failure result carrying the captured standard
error. -/
theorem extract_audio_spec_witness :
    extract_audio_from_video "clip.mp4" true true (Option.some "ffmpeg")
        { returncode := 1, stderr := "boom" } true
      = (ExtractAudioResult.failed "boom", true) := by
  have h := (extract_audio_spec.2.2 "clip.mp4" "ffmpeg"
    { returncode := 1, stderr := "boom" } true).2 (by simp)
  simpa using h

/-- A user with the hard-coded counters already bumped, for the statistics
counterexample. -/
def c8User : User :=
  { id := 1, username := Option.none, first_name := Option.none, last_name := Option.none,
    language := "en", joined_at := 100, is_active := true }

/-- Counterexample to Claim C8: after two `increment_stat "total_users"`
calls the counter reads 2, but a following `save_user` directly overwrites it
with the stored-user count and it reads 1 — the counter decreased and was
written by an operation other than `increment_stat`. -/
theorem stat_overwrite_cex :
    dictGet ((increment_stat ((increment_stat (initialLocalStorage 0) 1 "total_users").1)
        2 "total_users").1).stats "total_users" = Option.some 2 ∧
    dictGet ((save_user ((increment_stat ((increment_stat (initialLocalStorage 0) 1
        "total_users").1) 2 "total_users").1) 3 c8User).1).stats "total_users"
      = Option.some 1 := by
  decide

/-- Claim C8 (amended): `increment_stat` updates a counter by exactly plus
one, initialising an absent counter to 1, and leaves every other counter
unchanged; `save_song` leaves the statistics untouched; but `save_user`
directly overwrites the `total_users` counter with the stored-user count,
which is not an increment and can decrease the counter. -/
theorem increment_stat_spec (st : LocalStorage) (now : Nat) (name k : String) :
    dictGet (increment_stat st now name).1.stats name
      = Option.some ((dictGet st.stats name).getD 0 + 1) ∧
    (k ≠ name → dictGet (increment_stat st now name).1.stats k = dictGet st.stats k) ∧
    (∀ u, dictGet (save_user st now u).1.stats "total_users"
      = Option.some (Int.ofNat (dictSet st.users (toString u.id) (userDataOf now u)).length)) ∧
    (∀ s, (save_song st s).1.stats = st.stats) := by
  refine ⟨?_, ?_, ?_, ?_⟩
  · cases h : dictGet st.stats name <;> simp [increment_stat, h, dictGet_dictSet]
  · intro hk
    cases h : dictGet st.stats name <;>
      simp [increment_stat, h, dictGet_dictSet_ne _ _ _ _ hk]
  · intro u
    simp [save_user, dictGet_dictSet]
  · intro s
    rfl

/-- Witness for `increment_stat_spec`: bumping `songs_recognized` leaves
`total_users` unchanged. -/
theorem increment_stat_spec_witness :
    dictGet (increment_stat (initialLocalStorage 0) 5 "songs_recognized").1.stats "total_users"
      = dictGet (initialLocalStorage 0).stats "total_users" :=
  (increment_stat_spec (initialLocalStorage 0) 5 "songs_recognized" "total_users").2.1
    (by decide)

/-- A user record whose active flag is false. -/
def inactiveUser : User :=
  { id := 1, username := Option.none, first_name := Option.none, last_name := Option.none,
    language := "en", joined_at := 100, is_active := false }

/-- Counterexample to Claim C9: a record saved with the active flag false is
returned with the flag true — `save_user` hard-codes `is_active: True` and
`get_user` rebuilds the record with the constructor default — so the
round-trip is not field-by-field for every user record. -/
theorem save_get_user_cex :
    get_user (save_user (initialLocalStorage 0) 200 inactiveUser).1 1
      = Option.some { inactiveUser with is_active := true } ∧
    ({ inactiveUser with is_active := true } : User) ≠ inactiveUser := by
  decide

/-- Claim C9 (amended): for every user record whose active flag is true —
including one with a null display name — `save_user` followed by `get_user`
with the same identifier returns a record equal field-by-field to the one
saved; a record saved with the flag false comes back with it forced to
true. -/
theorem save_get_user_roundtrip (st : LocalStorage) (now : Nat) (u : User)
    (h : u.is_active = true) :
    get_user (save_user st now u).1 u.id = Option.some u := by
  have hget : dictGet (save_user st now u).1.users (toString u.id)
      = Option.some (userDataOf now u) := by
    simp [save_user, dictGet_dictSet]
  simp only [get_user, hget, userDataOf]
  cases u with
  | mk id username first_name last_name language joined_at is_active =>
    simp only [User.mk.injEq]
    simp at h
    simp [h]

/-- Witness for `save_get_user_roundtrip`: a user with a null username (and
active flag true) round-trips exactly. -/
theorem save_get_user_roundtrip_witness :
    get_user (save_user (initialLocalStorage 0) 200
        { id := 7, username := Option.none, first_name := Option.some "A",
          last_name := Option.none, language := "fa", joined_at := 5, is_active := true }).1 7
      = Option.some
        { id := 7, username := Option.none, first_name := Option.some "A",
          last_name := Option.none, language := "fa", joined_at := 5, is_active := true } :=
  save_get_user_roundtrip (initialLocalStorage 0) 200
    { id := 7, username := Option.none, first_name := Option.some "A",
      last_name := Option.none, language := "fa", joined_at := 5, is_active := true } rfl
